import Mathlib

/-!
Shallow embedding of the Substrate ERC20-multi runtime module
(`runtime/src/erc20.rs`) and verification of its specification.

The module is generic over `T::TokenBalance`; the repository's test
configuration instantiates it at `u128` and `AccountId` at `u64`, so
balances and allowances are modelled as `Nat` with checked arithmetic
bounded by `2 ^ 128`, and the `u32` token-id counter with checked
arithmetic bounded by `2 ^ 32`.

Storage is modelled as association lists with overwrite-on-insert,
mirroring `StorageMap::insert`.  Substrate of this era does not roll
back storage writes when a dispatchable returns `Err`, so every
operation is modelled as a function from a pre-state to a pair of a
`Result` and a post-state: the post-state retains all writes performed
before an early `?`/`ensure!` return.
-/

deriving instance DecidableEq for Except

namespace Erc20

/-- Account identifiers (`u64` in the test configuration; only equality is used). -/
abbrev AccountId := Nat

/-- Token balances (`T::TokenBalance`, instantiated at `u128`). -/
abbrev Balance := Nat

/-- Overflow bound of the `u128` balance type. -/
def balMod : Nat := 2 ^ 128

/-- Overflow bound of the `u32` token-id counter. -/
def tokenIdMod : Nat := 2 ^ 32

/-- Checked addition (`checked_add`) of a fixed-width unsigned integer with bound `bound`:
`none` exactly when the mathematical sum does not fit. -/
def checkedAdd (bound a b : Nat) : Option Nat :=
  if a + b < bound then some (a + b) else none

/-- Checked subtraction (`checked_sub`) of an unsigned integer: `none` exactly on underflow. -/
def checkedSub (a b : Nat) : Option Nat :=
  if b ≤ a then some (a - b) else none

/-- Lookup in an association-list storage map. -/
def lookupKV {α β : Type} [DecidableEq α] : List (α × β) → α → Option β
  | [], _ => none
  | (k, v) :: rest, key => if key = k then some v else lookupKV rest key

/-- Storage insert (`StorageMap::insert`): overwrite the binding of `key` if present,
append it otherwise. -/
def insertKV {α β : Type} [DecidableEq α] : List (α × β) → α → β → List (α × β)
  | [], key, val => [(key, val)]
  | (k, v) :: rest, key, val =>
    if key = k then (key, val) :: rest else (k, v) :: insertKV rest key val

/-- The `Erc20Token` struct: token metadata plus total supply. -/
structure Erc20Token where
  name : List Nat
  ticker : List Nat
  total_supply : Balance
deriving DecidableEq

/-- Events deposited by the module (`decl_event!`). -/
inductive Event where
  | Transfer (token_id : Nat) (source dest : AccountId) (value : Balance)
  | Approval (token_id : Nat) (owner spender : AccountId) (value : Balance)
deriving DecidableEq

/-- The module's storage (`decl_storage!`) together with the deposited
events: the `TokenId` counter, the `Tokens` registry, the `BalanceOf`
ledger and the `Allowance` ledger. -/
structure State where
  token_id : Nat
  tokens : List (Nat × Erc20Token)
  balances : List ((Nat × AccountId) × Balance)
  allowances : List ((Nat × AccountId × AccountId) × Balance)
  events : List Event
deriving DecidableEq

/-- Genesis storage: counter 0, all maps empty. -/
def genesis : State := ⟨0, [], [], [], []⟩

/-- Dispatch origin: a signed extrinsic or an unauthenticated one. -/
inductive Origin where
  | signed (who : AccountId)
  | unsigned
deriving DecidableEq

/-- Origin check (`system::ensure_signed`): the account of a signed origin, an error otherwise. -/
def ensure_signed : Origin → Except String AccountId
  | .signed who => .ok who
  | .unsigned => .error "bad origin"

/-- The `balance_of` getter: stored value, or zero when no entry exists. -/
def balance_of (s : State) (k : Nat × AccountId) : Balance :=
  (lookupKV s.balances k).getD 0

/-- Existence test of the balance ledger (`<BalanceOf<T>>::exists`). -/
def balanceExists (s : State) (k : Nat × AccountId) : Bool :=
  (lookupKV s.balances k).isSome

/-- The `allowance` getter: stored value, or zero when no entry exists. -/
def allowance (s : State) (k : Nat × AccountId × AccountId) : Balance :=
  (lookupKV s.allowances k).getD 0

/-- Existence test of the allowance ledger (`<Allowance<T>>::exists`). -/
def allowanceExists (s : State) (k : Nat × AccountId × AccountId) : Bool :=
  (lookupKV s.allowances k).isSome

/-- Event deposit (`Self::deposit_event`). -/
def deposit_event (s : State) (e : Event) : State :=
  { s with events := s.events ++ [e] }

/-- The dispatch result and the storage state after the call (writes
performed before an error are retained, as in the host's storage model). -/
abbrev Outcome := Except String Unit × State

/-- The init dispatchable: validates name/ticker lengths, allocates the next token id with
checked arithmetic, stores the token record and credits the caller's
balance with the whole supply. -/
def init (s : State) (origin : Origin) (name ticker : List Nat)
    (total_supply : Balance) : Outcome :=
  match ensure_signed origin with
  | .error e => (.error e, s)
  | .ok sender =>
    if name.length ≤ 64 then
      if ticker.length ≤ 32 then
        let token_id := s.token_id
        match checkedAdd tokenIdMod token_id 1 with
        | none => (.error "overflow in calculating next token id", s)
        | some next_token_id =>
          let s1 : State := { s with token_id := next_token_id }
          let token : Erc20Token := ⟨name, ticker, total_supply⟩
          let s2 : State := { s1 with tokens := insertKV s1.tokens token_id token }
          let s3 : State :=
            { s2 with balances := insertKV s2.balances (token_id, sender) total_supply }
          (.ok (), s3)
      else (.error "token ticker cannot exceed 32 bytes", s)
    else (.error "token name cannot exceed 64 bytes", s)

/-- The internal `_transfer`: existence gate on the source entry, balance
check, checked arithmetic, then both balance writes and a `Transfer` event.
Note that the receiver balance is read from storage before either write. -/
def _transfer (s : State) (token_id : Nat) (source dest : AccountId)
    (value : Balance) : Outcome :=
  if (lookupKV s.balances (token_id, source)).isSome = true then
    let sender_balance := balance_of s (token_id, source)
    if sender_balance ≥ value then
      match checkedSub sender_balance value with
      | none => (.error "overflow in calculating balance", s)
      | some updated_from_balance =>
        let receiver_balance := balance_of s (token_id, dest)
        match checkedAdd balMod receiver_balance value with
        | none => (.error "overflow in calculating balance", s)
        | some updated_to_balance =>
          let s1 : State :=
            { s with balances := insertKV s.balances (token_id, source) updated_from_balance }
          let s2 : State :=
            { s1 with balances := insertKV s1.balances (token_id, dest) updated_to_balance }
          (.ok (), deposit_event s2 (.Transfer token_id source dest value))
    else (.error "Not enough balance.", s)
  else (.error "Account does not own this token", s)

/-- The `transfer` dispatchable: the signed sender is the source of `_transfer`. -/
def transfer (s : State) (origin : Origin) (token_id : Nat) (dest : AccountId)
    (value : Balance) : Outcome :=
  match ensure_signed origin with
  | .error e => (.error e, s)
  | .ok sender => _transfer s token_id sender dest value

/-- The `approve` dispatchable: requires the signed caller to hold an explicit
balance entry, then adds `value` to the existing allowance with checked
arithmetic and emits an `Approval` event carrying the delta. -/
def approve (s : State) (origin : Origin) (token_id : Nat) (spender : AccountId)
    (value : Balance) : Outcome :=
  match ensure_signed origin with
  | .error e => (.error e, s)
  | .ok sender =>
    if (lookupKV s.balances (token_id, sender)).isSome = true then
      let a := allowance s (token_id, sender, spender)
      match checkedAdd balMod a value with
      | none => (.error "overflow in calculating allowance", s)
      | some updated_allowance =>
        let s1 : State :=
          { s with allowances := insertKV s.allowances (token_id, sender, spender) updated_allowance }
        (.ok (), deposit_event s1 (.Approval token_id sender spender value))
    else (.error "Account does not own this token", s)

/-- The `transfer_from` dispatchable.  The origin parameter is never
inspected (the Rust source binds it as `_origin` and performs no
`ensure_signed`).  The allowance consulted and decremented is keyed
`(token_id, from, to)`, with the `to` parameter in the spender slot; the
decremented allowance and the `Approval` event are written before the
balance move is attempted. -/
def transfer_from (s : State) (_origin : Origin) (token_id : Nat)
    (source dest : AccountId) (value : Balance) : Outcome :=
  if (lookupKV s.allowances (token_id, source, dest)).isSome = true then
    let a := allowance s (token_id, source, dest)
    if a ≥ value then
      match checkedSub a value with
      | none => (.error "overflow in calculating allowance", s)
      | some updated_allowance =>
        let s1 : State :=
          { s with allowances := insertKV s.allowances (token_id, source, dest) updated_allowance }
        let s2 := deposit_event s1 (.Approval token_id source dest value)
        _transfer s2 token_id source dest value
    else (.error "Not enough allowance.", s)
  else (.error "Allowance does not exist.", s)

/-- Sum of all stored balance entries for one token id. -/
def tokenSum (token_id : Nat) (bal : List ((Nat × AccountId) × Balance)) : Nat :=
  (bal.filter (fun kv => kv.1.1 = token_id)).foldr (fun kv acc => kv.2 + acc) 0

/-! Basic lemmas about the storage maps and the internal transfer. -/

/-- Looking up the freshly inserted key returns the inserted value. -/
theorem lookupKV_insertKV_self {α β : Type} [DecidableEq α]
    (m : List (α × β)) (k : α) (v : β) :
    lookupKV (insertKV m k v) k = some v := by
  induction m with
  | nil => simp [insertKV, lookupKV]
  | cons hd tl ih =>
    obtain ⟨k', v'⟩ := hd
    by_cases h : k = k'
    · simp [insertKV, lookupKV, h]
    · simp [insertKV, lookupKV, h, ih]

/-- Inserting one key leaves lookups of every other key unchanged. -/
theorem lookupKV_insertKV_ne {α β : Type} [DecidableEq α]
    (m : List (α × β)) (k k' : α) (v : β) (h : k ≠ k') :
    lookupKV (insertKV m k' v) k = lookupKV m k := by
  induction m with
  | nil => simp [insertKV, lookupKV, h]
  | cons hd tl ih =>
    obtain ⟨k0, v0⟩ := hd
    by_cases h0 : k' = k0
    · subst h0
      simp [insertKV, lookupKV, h]
    · by_cases h1 : k = k0 <;> simp [insertKV, lookupKV, h0, h1, ih]

/-- The internal transfer never touches the allowance ledger. -/
theorem _transfer_allowances (s : State) (t : Nat) (f d : AccountId) (v : Balance) :
    ((_transfer s t f d v).2).allowances = s.allowances := by
  unfold _transfer
  repeat (any_goals (first | split | dsimp only))
  all_goals rfl

/-- The internal transfer never touches the token-id counter. -/
theorem _transfer_token_id (s : State) (t : Nat) (f d : AccountId) (v : Balance) :
    ((_transfer s t f d v).2).token_id = s.token_id := by
  unfold _transfer
  repeat (any_goals (first | split | dsimp only))
  all_goals rfl

/-- The internal transfer never touches the token registry. -/
theorem _transfer_tokens (s : State) (t : Nat) (f d : AccountId) (v : Balance) :
    ((_transfer s t f d v).2).tokens = s.tokens := by
  unfold _transfer
  repeat (any_goals (first | split | dsimp only))
  all_goals rfl

/-- The internal transfer either succeeds or leaves the whole state unchanged
(every failing branch precedes both of its storage writes). -/
theorem _transfer_state_or_ok (s : State) (t : Nat) (f d : AccountId) (v : Balance) :
    (_transfer s t f d v).2 = s ∨ (_transfer s t f d v).1 = .ok () := by
  unfold _transfer
  repeat (any_goals (first | split | dsimp only))
  all_goals simp

/-- Events already deposited survive the internal transfer. -/
theorem _transfer_events_mono (s : State) (t : Nat) (f d : AccountId) (v : Balance)
    (e : Event) (he : e ∈ s.events) : e ∈ ((_transfer s t f d v).2).events := by
  unfold _transfer
  repeat (any_goals (first | split | dsimp only))
  all_goals simp [deposit_event, he]

/-- A successful checked subtraction computes the truncated difference. -/
theorem checkedSub_eq_some {a b u : Nat} (h : checkedSub a b = some u) :
    u = a - b ∧ b ≤ a := by
  unfold checkedSub at h
  split at h <;> simp_all

/-- A successful checked addition computes the sum, which fits the bound. -/
theorem checkedAdd_eq_some {bound a b u : Nat} (h : checkedAdd bound a b = some u) :
    u = a + b ∧ a + b < bound := by
  unfold checkedAdd at h
  split at h <;> simp_all

end Erc20

namespace Erc20Claims

open Erc20

/-- Claim C1 (code bug): conservation fails on the code.  Starting from
genesis, `init` as account 0 with supply 10 makes the token-0 balance sum 10,
but the self-transfer `transfer(signed 0, 0, 0, 10)` then succeeds and leaves
the sum at 20: `_transfer` reads the receiver balance before writing the
sender's debit, so for `from == to` the debit is overwritten and the credited
balance comes from the undebited reading.  The repository's own test
`transfer_to_self` asserts the balance stays 10, which the code violates. -/
theorem C1_conservation_broken_by_self_transfer :
    (init genesis (.signed 0) [1] [2] 10).1 = .ok ()
    ∧ tokenSum 0 (init genesis (.signed 0) [1] [2] 10).2.balances = 10
    ∧ (transfer (init genesis (.signed 0) [1] [2] 10).2 (.signed 0) 0 0 10).1 = .ok ()
    ∧ tokenSum 0
        (transfer (init genesis (.signed 0) [1] [2] 10).2 (.signed 0) 0 0 10).2.balances
      = 20 := by
  decide

/-- Claim C3 (code bug): a self-transfer is not balance-preserving.  After
`init` with supply 10 by account 0, the entry `(0, 0)` exists with balance 10
and `10 ≤ balance`, yet `transfer(signed 0, 0, 0, 10)` succeeds and sets
`balance_of (0, 0)` to 20 instead of leaving it at 10 — contradicting the
repository's own `transfer_to_self` test. -/
theorem C3_self_transfer_mints :
    balanceExists (init genesis (.signed 0) [1] [2] 10).2 (0, 0) = true
    ∧ (10 : Balance) ≤ balance_of (init genesis (.signed 0) [1] [2] 10).2 (0, 0)
    ∧ (transfer (init genesis (.signed 0) [1] [2] 10).2 (.signed 0) 0 0 10).1 = .ok ()
    ∧ balance_of (transfer (init genesis (.signed 0) [1] [2] 10).2 (.signed 0) 0 0 10).2 (0, 0)
      = 20 := by
  decide

/-- Claim C2 (counterexample): `transfer_from` is not all-or-nothing.  After
`init` by account 0 with supply 10 and `approve(signed 0, 0, 1, 20)` the
allowance `(0, 0, 1)` is 20; `transfer_from(signed 1, 0, 0, 1, 15)` then
fails inside the balance move (balance 10 < 15) — yet the allowance entry
has already been decremented to 5, so the allowance ledger is not as it was
before the failing call. -/
theorem C2_cx_failed_transfer_from_keeps_allowance_write :
    (transfer_from (approve (init genesis (.signed 0) [1] [2] 10).2 (.signed 0) 0 1 20).2
        (.signed 1) 0 0 1 15).1 = .error "Not enough balance."
    ∧ Erc20.allowance (approve (init genesis (.signed 0) [1] [2] 10).2 (.signed 0) 0 1 20).2
        (0, 0, 1) = 20
    ∧ Erc20.allowance
        (transfer_from (approve (init genesis (.signed 0) [1] [2] 10).2 (.signed 0) 0 1 20).2
          (.signed 1) 0 0 1 15).2 (0, 0, 1) = 5 := by
  decide

/-- Claim C2 (amended): `init`, `transfer` and `approve` are all-or-nothing —
whenever one of them returns an error the whole state is exactly as before
the call.  `transfer_from` keeps the counter and the token registry intact,
and on error also the balance ledger, but its allowance write is performed
before the balance move: a `transfer_from` that fails afterwards leaves the
allowance ledger either untouched (early failure) or with the entry
`(token_id, from, to)` already overwritten by the decremented value. -/
theorem C2_all_or_nothing_except_transfer_from_allowance :
    (∀ (s : State) (o : Origin) (n tk : List Nat) (ts : Balance),
      (init s o n tk ts).2 = s ∨ (init s o n tk ts).1 = .ok ())
    ∧ (∀ (s : State) (o : Origin) (t : Nat) (d : AccountId) (v : Balance),
      (transfer s o t d v).2 = s ∨ (transfer s o t d v).1 = .ok ())
    ∧ (∀ (s : State) (o : Origin) (t : Nat) (sp : AccountId) (v : Balance),
      (approve s o t sp v).2 = s ∨ (approve s o t sp v).1 = .ok ())
    ∧ (∀ (s : State) (o : Origin) (t : Nat) (f d : AccountId) (v : Balance),
      (transfer_from s o t f d v).2.token_id = s.token_id
      ∧ (transfer_from s o t f d v).2.tokens = s.tokens
      ∧ ((transfer_from s o t f d v).1 = .ok ()
        ∨ ((transfer_from s o t f d v).2.balances = s.balances
          ∧ ((transfer_from s o t f d v).2.allowances = s.allowances
            ∨ (transfer_from s o t f d v).2.allowances
                = insertKV s.allowances (t, f, d) (Erc20.allowance s (t, f, d) - v))))) := by
  refine ⟨?_, ?_, ?_, ?_⟩
  · intro s o n tk ts
    cases o with
    | unsigned => exact Or.inl rfl
    | signed who =>
      unfold init ensure_signed
      repeat (any_goals (first | split | dsimp only))
      all_goals simp
  · intro s o t d v
    cases o with
    | unsigned => exact Or.inl rfl
    | signed who => exact _transfer_state_or_ok s t who d v
  · intro s o t sp v
    cases o with
    | unsigned => exact Or.inl rfl
    | signed who =>
      unfold approve ensure_signed
      repeat (any_goals (first | split | dsimp only))
      all_goals simp
  · intro s o t f d v
    unfold transfer_from
    repeat (any_goals (first | split | dsimp only))
    case refine_4.isTrue.isTrue.h_2 hex hge x u hu =>
      obtain ⟨hu', _⟩ := checkedSub_eq_some hu
      subst hu'
      refine ⟨?_, ?_, ?_⟩
      · rw [_transfer_token_id]; rfl
      · rw [_transfer_tokens]; rfl
      · rcases _transfer_state_or_ok
          (deposit_event
            { s with allowances :=
                insertKV s.allowances (t, f, d) (Erc20.allowance s (t, f, d) - v) }
            (.Approval t f d v)) t f d v with h | h
        · exact Or.inr ⟨by rw [h]; rfl, Or.inr (by rw [h]; rfl)⟩
        · exact Or.inl h
    all_goals exact ⟨rfl, rfl, Or.inr ⟨rfl, Or.inl rfl⟩⟩

/-- Claim C5 (counterexample): an unauthenticated origin is not rejected by
`transfer_from`.  With allowance `(0, 0, 1) = 5` in place, the call
`transfer_from(unsigned, 0, 0, 1, 5)` succeeds and changes the state. -/
theorem C5_cx_unsigned_transfer_from_succeeds :
    (transfer_from (approve (init genesis (.signed 0) [1] [2] 10).2 (.signed 0) 0 1 5).2
        .unsigned 0 0 1 5).1 = .ok ()
    ∧ (transfer_from (approve (init genesis (.signed 0) [1] [2] 10).2 (.signed 0) 0 1 5).2
        .unsigned 0 0 1 5).2
      ≠ (approve (init genesis (.signed 0) [1] [2] 10).2 (.signed 0) 0 1 5).2 := by
  decide

/-- Claim C5 (amended): `transfer_from` never inspects its origin — the call
behaves identically for a signed and an unauthenticated origin, so no
authentication takes place — whereas the other three entry points reject an
unauthenticated origin with an error before reading or writing any state. -/
theorem C5_transfer_from_ignores_origin :
    (∀ (s : State) (o : Origin) (t : Nat) (f d : AccountId) (v : Balance),
      transfer_from s o t f d v = transfer_from s .unsigned t f d v)
    ∧ (∀ (s : State) (n tk : List Nat) (ts : Balance),
      init s .unsigned n tk ts = (.error "bad origin", s))
    ∧ (∀ (s : State) (t : Nat) (d : AccountId) (v : Balance),
      transfer s .unsigned t d v = (.error "bad origin", s))
    ∧ (∀ (s : State) (t : Nat) (sp : AccountId) (v : Balance),
      approve s .unsigned t sp v = (.error "bad origin", s)) :=
  ⟨fun _ _ _ _ _ _ => rfl, fun _ _ _ _ => rfl, fun _ _ _ _ => rfl, fun _ _ _ _ => rfl⟩

/-- Claim C4: `transfer_from(caller, token_id, from, to, value)` consults,
tests (`allowance ≥ value`) and decrements the allowance entry keyed
`(token_id, from, to)` — the `to` parameter fills the spender slot of the
key and of the emitted `Approval` event — and the caller's identity is
never consulted: the outcome is independent of the origin, and no allowance
key other than `(token_id, from, to)` is ever read or written. -/
theorem C4_transfer_from_keys_allowance_by_to (s : State) (o o' : Origin)
    (t : Nat) (f d : AccountId) (v : Balance) :
    transfer_from s o t f d v = transfer_from s o' t f d v
    ∧ (∀ k, k ≠ (t, f, d) →
        lookupKV (transfer_from s o t f d v).2.allowances k = lookupKV s.allowances k)
    ∧ ((transfer_from s o t f d v).1 = .ok () →
        allowanceExists s (t, f, d) = true
        ∧ v ≤ Erc20.allowance s (t, f, d)
        ∧ Erc20.allowance (transfer_from s o t f d v).2 (t, f, d)
            = Erc20.allowance s (t, f, d) - v
        ∧ Event.Approval t f d v ∈ (transfer_from s o t f d v).2.events) := by
  refine ⟨rfl, ?_, ?_⟩
  · intro k hk
    unfold transfer_from
    repeat (any_goals (first | split | dsimp only))
    all_goals first
      | rfl
      | (rw [_transfer_allowances]; exact lookupKV_insertKV_ne _ _ _ _ hk)
  · unfold transfer_from
    repeat (any_goals (first | split | dsimp only))
    case h_2 hex hge x u hu =>
      intro _
      obtain ⟨hu', hle⟩ := checkedSub_eq_some hu
      subst hu'
      refine ⟨hex, hge, ?_, ?_⟩
      · simp only [Erc20.allowance]
        rw [_transfer_allowances]
        simp [deposit_event, lookupKV_insertKV_self]
      · exact _transfer_events_mono _ t f d v _ (by simp [deposit_event])
    all_goals intro h
    all_goals simp at h

/-- Claim C6: a successful `init` with valid name/ticker lengths allocates
the pre-increment counter value as the token id, persists the
overflow-checked incremented counter, stores the token record and credits
the caller's balance entry with the full supply; a saturated counter makes
it fail with the overflow error, and an over-long name or ticker makes it
fail without changing any store. -/
theorem C6_init_behaviour (s : State) (caller : AccountId)
    (name ticker : List Nat) (ts : Balance) :
    (name.length ≤ 64 → ticker.length ≤ 32 → s.token_id + 1 < tokenIdMod →
      init s (.signed caller) name ticker ts =
        (.ok (), { s with token_id := s.token_id + 1,
                          tokens := insertKV s.tokens s.token_id ⟨name, ticker, ts⟩,
                          balances := insertKV s.balances (s.token_id, caller) ts }))
    ∧ (name.length ≤ 64 → ticker.length ≤ 32 → ¬ s.token_id + 1 < tokenIdMod →
      init s (.signed caller) name ticker ts
        = (.error "overflow in calculating next token id", s))
    ∧ (¬ (name.length ≤ 64 ∧ ticker.length ≤ 32) →
      (init s (.signed caller) name ticker ts).2 = s
      ∧ ∃ e, (init s (.signed caller) name ticker ts).1 = .error e) := by
  refine ⟨?_, ?_, ?_⟩
  · intro hn ht hc
    unfold init ensure_signed
    dsimp only
    rw [if_pos hn, if_pos ht]
    simp [checkedAdd, hc]
  · intro hn ht hc
    unfold init ensure_signed
    dsimp only
    rw [if_pos hn, if_pos ht]
    simp [checkedAdd, hc]
  · intro hnt
    unfold init ensure_signed
    dsimp only
    by_cases hn : name.length ≤ 64
    · rw [if_pos hn, if_neg (fun ht => hnt ⟨hn, ht⟩)]
      exact ⟨rfl, _, rfl⟩
    · rw [if_neg hn]
      exact ⟨rfl, _, rfl⟩

/-- Claim C7 (counterexample): a transfer whose value exceeds the source's
balance does not always fail with the insufficient-balance error.  On the
genesis state, account 0 has balance 0 for token 0 and tries to transfer 1,
but the call fails with the no-such-account error instead, because the
existence gate fires before the balance comparison. -/
theorem C7_cx_no_entry_gives_no_such_account :
    (1 : Balance) > balance_of genesis (0, 0)
    ∧ transfer genesis (.signed 0) 0 1 1 = (.error "Account does not own this token", genesis)
    ∧ "Account does not own this token" ≠ "Not enough balance." := by
  decide

/-- Claim C7 (amended): balances are unsigned, hence never negative; when the
source holds an explicit balance entry and `value > balance_of (t, from)`,
`transfer` fails with the insufficient-balance error and leaves the whole
state — in particular both balances — unchanged; when the source holds no
entry (so its balance reads zero), it instead fails with the no-such-account
error, likewise leaving the state unchanged. -/
theorem C7_insufficient_balance_rejected (s : State) (t : Nat) (f d : AccountId)
    (v : Balance) :
    0 ≤ balance_of s (t, f)
    ∧ (balanceExists s (t, f) = true → v > balance_of s (t, f) →
        transfer s (.signed f) t d v = (.error "Not enough balance.", s))
    ∧ (balanceExists s (t, f) = false →
        transfer s (.signed f) t d v = (.error "Account does not own this token", s)) := by
  refine ⟨Nat.zero_le _, ?_, ?_⟩
  · intro hex hv
    have hex' : (lookupKV s.balances (t, f)).isSome = true := hex
    have hlt : ¬ balance_of s (t, f) ≥ v := Nat.not_le.mpr hv
    unfold transfer ensure_signed _transfer
    dsimp only
    rw [if_pos hex', if_neg hlt]
  · intro hex
    unfold transfer ensure_signed _transfer
    dsimp only
    rw [if_neg (by simp only [balanceExists] at hex; simp [hex])]

/-- A successful `approve` in full: with an existing balance entry and no
allowance overflow, the call returns `Ok` and writes the incremented
allowance plus the `Approval` event. -/
theorem approve_ok (s : State) (t : Nat) (caller sp : AccountId) (v : Balance)
    (hex : balanceExists s (t, caller) = true)
    (hov : Erc20.allowance s (t, caller, sp) + v < balMod) :
    approve s (.signed caller) t sp v =
      (.ok (), deposit_event
        { s with allowances :=
            insertKV s.allowances (t, caller, sp) (Erc20.allowance s (t, caller, sp) + v) }
        (.Approval t caller sp v)) := by
  have hex' : (lookupKV s.balances (t, caller)).isSome = true := hex
  unfold approve ensure_signed
  dsimp only
  rw [if_pos hex']
  simp [checkedAdd, hov]

/-- Field-level consequences of a successful `approve`: success, untouched
balance ledger, and the allowance entry incremented by the delta. -/
theorem approve_fields (s : State) (t : Nat) (caller sp : AccountId) (v : Balance)
    (hex : balanceExists s (t, caller) = true)
    (hov : Erc20.allowance s (t, caller, sp) + v < balMod) :
    (approve s (.signed caller) t sp v).1 = .ok ()
    ∧ (approve s (.signed caller) t sp v).2.balances = s.balances
    ∧ Erc20.allowance (approve s (.signed caller) t sp v).2 (t, caller, sp)
        = Erc20.allowance s (t, caller, sp) + v := by
  rw [approve_ok s t caller sp v hex hov]
  refine ⟨rfl, rfl, ?_⟩
  simp [Erc20.allowance, deposit_event, lookupKV_insertKV_self]

/-- Claim C8: approvals are additive.  For an owner holding an explicit
balance entry for token `t`, two successive successful
`approve(owner, t, spender, v1)` then `approve(owner, t, spender, v2)`
calls (no intervening operations, no overflow) leave the allowance equal to
the pre-call allowance plus `v1 + v2`. -/
theorem C8_approve_is_additive (s : State) (t : Nat) (owner sp : AccountId)
    (v1 v2 : Balance) (hex : balanceExists s (t, owner) = true)
    (h1 : Erc20.allowance s (t, owner, sp) + v1 < balMod)
    (h2 : Erc20.allowance s (t, owner, sp) + v1 + v2 < balMod) :
    (approve s (.signed owner) t sp v1).1 = .ok ()
    ∧ (approve (approve s (.signed owner) t sp v1).2 (.signed owner) t sp v2).1 = .ok ()
    ∧ Erc20.allowance
        (approve (approve s (.signed owner) t sp v1).2 (.signed owner) t sp v2).2
        (t, owner, sp)
      = Erc20.allowance s (t, owner, sp) + v1 + v2 := by
  obtain ⟨o1, b1, a1⟩ := approve_fields s t owner sp v1 hex h1
  have hex1 : balanceExists (approve s (.signed owner) t sp v1).2 (t, owner) = true := by
    simp only [Erc20.balanceExists] at hex ⊢
    rw [b1]
    exact hex
  have hov2 :
      Erc20.allowance (approve s (.signed owner) t sp v1).2 (t, owner, sp) + v2 < balMod := by
    rw [a1]
    exact h2
  obtain ⟨o2, b2, a2⟩ :=
    approve_fields (approve s (.signed owner) t sp v1).2 t owner sp v2 hex1 hov2
  exact ⟨o1, o2, by rw [a2, a1]⟩

/-- Claim C10: `approve` never compares the approved value against the
owner's balance.  For any caller holding an explicit balance entry (even a
zero-valued one) and any value whose checked addition to the current
allowance does not overflow, the call succeeds and the new allowance is the
old one plus the value — with no bound relating it to `balance_of`. -/
theorem C10_approve_unconstrained_by_balance (s : State) (t : Nat)
    (caller sp : AccountId) (v : Balance)
    (hex : balanceExists s (t, caller) = true)
    (hov : Erc20.allowance s (t, caller, sp) + v < balMod) :
    (approve s (.signed caller) t sp v).1 = .ok ()
    ∧ Erc20.allowance (approve s (.signed caller) t sp v).2 (t, caller, sp)
        = Erc20.allowance s (t, caller, sp) + v := by
  obtain ⟨o1, _, a1⟩ := approve_fields s t caller sp v hex hov
  exact ⟨o1, a1⟩

/-- Claim C9 (counterexample): a zero-value transfer is not observably a
no-op on the stores.  After `init` by account 0, account 1 has no balance
entry for token 0; `transfer(signed 0, 0, 1, 0)` succeeds and creates an
explicit zero-valued entry for `(0, 1)`, changing the entry's existence
status. -/
theorem C9_cx_zero_transfer_creates_entry :
    balanceExists (init genesis (.signed 0) [1] [2] 10).2 (0, 1) = false
    ∧ (transfer (init genesis (.signed 0) [1] [2] 10).2 (.signed 0) 0 1 0).1 = .ok ()
    ∧ balanceExists (transfer (init genesis (.signed 0) [1] [2] 10).2 (.signed 0) 0 1 0).2
        (0, 1) = true := by
  decide

/-- Claim C9 (amended): a zero-value transfer from an account with an
explicit balance entry succeeds and changes no stored value: every
`balance_of` reading, the allowance ledger, the counter and the token
registry are unchanged, and the existence status of every balance entry
other than `(t, to)` is unchanged — but the entry `(t, to)` is explicitly
present afterwards, even when it did not exist before the call.  (The
receiver-balance bound is the `u128` typing of stored balances.) -/
theorem C9_zero_transfer_preserves_values (s : State) (t : Nat) (f d : AccountId)
    (hex : balanceExists s (t, f) = true)
    (hd : balance_of s (t, d) < balMod) :
    (transfer s (.signed f) t d 0).1 = .ok ()
    ∧ (∀ k, balance_of (transfer s (.signed f) t d 0).2 k = balance_of s k)
    ∧ (transfer s (.signed f) t d 0).2.allowances = s.allowances
    ∧ (transfer s (.signed f) t d 0).2.token_id = s.token_id
    ∧ (transfer s (.signed f) t d 0).2.tokens = s.tokens
    ∧ (∀ k, k ≠ (t, d) →
        balanceExists (transfer s (.signed f) t d 0).2 k = balanceExists s k)
    ∧ balanceExists (transfer s (.signed f) t d 0).2 (t, d) = true := by
  have hex' : (lookupKV s.balances (t, f)).isSome = true := hex
  have hstep : transfer s (.signed f) t d 0 =
      (.ok (), deposit_event
        { s with balances := insertKV (insertKV s.balances (t, f) (balance_of s (t, f))) (t, d) (balance_of s (t, d)) }
        (.Transfer t f d 0)) := by
    unfold transfer ensure_signed _transfer
    dsimp only
    rw [if_pos hex', if_pos (Nat.zero_le _)]
    simp [checkedSub, checkedAdd, hd]
  rw [hstep]
  refine ⟨rfl, ?_, rfl, rfl, rfl, ?_, ?_⟩
  · intro k
    by_cases hkd : k = (t, d)
    · subst hkd
      simp [Erc20.balance_of, deposit_event, lookupKV_insertKV_self]
    · by_cases hkf : k = (t, f)
      · subst hkf
        simp [Erc20.balance_of, deposit_event, lookupKV_insertKV_ne _ _ _ _ hkd,
          lookupKV_insertKV_self]
      · simp [Erc20.balance_of, deposit_event, lookupKV_insertKV_ne _ _ _ _ hkd,
          lookupKV_insertKV_ne _ _ _ _ hkf]
  · intro k hk
    by_cases hkf : k = (t, f)
    · subst hkf
      simp [Erc20.balanceExists, deposit_event, lookupKV_insertKV_ne _ _ _ _ hk,
        lookupKV_insertKV_self, hex']
    · simp [Erc20.balanceExists, deposit_event, lookupKV_insertKV_ne _ _ _ _ hk,
        lookupKV_insertKV_ne _ _ _ _ hkf]
  · simp [Erc20.balanceExists, deposit_event, lookupKV_insertKV_self]

/-- Witness for claim C4: with allowance `(0, 0, 1) = 20` and balance 10, a
`transfer_from` of 5 leaves the `(0, 0, 1)` allowance at its old value minus
5 and the unrelated key `(0, 1, 1)` untouched. -/
theorem C4_witness :
    Erc20.allowance
      (transfer_from (approve (init genesis (.signed 0) [1] [2] 10).2 (.signed 0) 0 1 20).2
        (.signed 9) 0 0 1 5).2 (0, 0, 1)
      = Erc20.allowance (approve (init genesis (.signed 0) [1] [2] 10).2 (.signed 0) 0 1 20).2
          (0, 0, 1) - 5
    ∧ lookupKV
        (transfer_from (approve (init genesis (.signed 0) [1] [2] 10).2 (.signed 0) 0 1 20).2
          (.signed 9) 0 0 1 5).2.allowances (0, 1, 1)
      = lookupKV
          (approve (init genesis (.signed 0) [1] [2] 10).2 (.signed 0) 0 1 20).2.allowances
          (0, 1, 1) :=
  ⟨((C4_transfer_from_keys_allowance_by_to
      (approve (init genesis (.signed 0) [1] [2] 10).2 (.signed 0) 0 1 20).2
      (.signed 9) .unsigned 0 0 1 5).2.2 (by decide)).2.2.1,
   (C4_transfer_from_keys_allowance_by_to
      (approve (init genesis (.signed 0) [1] [2] 10).2 (.signed 0) 0 1 20).2
      (.signed 9) .unsigned 0 0 1 5).2.1 (0, 1, 1) (by decide)⟩

/-- Witness for claim C6: a concrete successful `init` from genesis. -/
theorem C6_witness :
    init genesis (.signed 0) [] [] 10 =
      (.ok (), { genesis with token_id := 1,
                              tokens := insertKV genesis.tokens 0 ⟨[], [], 10⟩,
                              balances := insertKV genesis.balances (0, 0) 10 }) :=
  (C6_init_behaviour genesis 0 [] [] 10).1 (by decide) (by decide) (by decide)

/-- Witness for claim C7: transferring 11 from a balance of 10 fails with the
insufficient-balance error and leaves the state untouched. -/
theorem C7_witness :
    transfer (init genesis (.signed 0) [1] [2] 10).2 (.signed 0) 0 1 11
      = (.error "Not enough balance.", (init genesis (.signed 0) [1] [2] 10).2) :=
  (C7_insufficient_balance_rejected (init genesis (.signed 0) [1] [2] 10).2 0 0 1 11).2.1
    (by decide) (by decide)

/-- Witness for claim C8: approving 3 and then 4 on a fresh token yields a
cumulative allowance of the original allowance plus 3 plus 4. -/
theorem C8_witness :
    (approve (approve (init genesis (.signed 0) [1] [2] 10).2 (.signed 0) 0 1 3).2
        (.signed 0) 0 1 4).1 = .ok ()
    ∧ Erc20.allowance
        (approve (approve (init genesis (.signed 0) [1] [2] 10).2 (.signed 0) 0 1 3).2
          (.signed 0) 0 1 4).2 (0, 0, 1)
      = Erc20.allowance (init genesis (.signed 0) [1] [2] 10).2 (0, 0, 1) + 3 + 4 := by
  have h := C8_approve_is_additive (init genesis (.signed 0) [1] [2] 10).2 0 0 1 3 4
    (by decide) (by decide) (by decide)
  exact ⟨h.2.1, h.2.2⟩

/-- Witness for claim C9: a concrete zero-value transfer succeeds, preserves
the sender's balance reading and creates the receiver's entry. -/
theorem C9_witness :
    (transfer (init genesis (.signed 0) [1] [2] 10).2 (.signed 0) 0 1 0).1 = .ok ()
    ∧ balance_of (transfer (init genesis (.signed 0) [1] [2] 10).2 (.signed 0) 0 1 0).2 (0, 0)
        = balance_of (init genesis (.signed 0) [1] [2] 10).2 (0, 0)
    ∧ balanceExists (transfer (init genesis (.signed 0) [1] [2] 10).2 (.signed 0) 0 1 0).2
        (0, 1) = true := by
  have h := C9_zero_transfer_preserves_values (init genesis (.signed 0) [1] [2] 10).2 0 0 1
    (by decide) (by decide)
  exact ⟨h.1, h.2.1 (0, 0), h.2.2.2.2.2.2⟩

/-- Witness for claim C10: after moving the whole supply away, account 0
holds an explicit zero balance entry and can still approve 100, ending with
an allowance strictly above its balance. -/
theorem C10_witness :
    (approve (transfer (init genesis (.signed 0) [1] [2] 10).2 (.signed 0) 0 1 10).2
        (.signed 0) 0 2 100).1 = .ok ()
    ∧ Erc20.allowance
        (approve (transfer (init genesis (.signed 0) [1] [2] 10).2 (.signed 0) 0 1 10).2
          (.signed 0) 0 2 100).2 (0, 0, 2)
      = Erc20.allowance (transfer (init genesis (.signed 0) [1] [2] 10).2 (.signed 0) 0 1 10).2
          (0, 0, 2) + 100
    ∧ Erc20.allowance
        (approve (transfer (init genesis (.signed 0) [1] [2] 10).2 (.signed 0) 0 1 10).2
          (.signed 0) 0 2 100).2 (0, 0, 2)
      > balance_of
          (approve (transfer (init genesis (.signed 0) [1] [2] 10).2 (.signed 0) 0 1 10).2
            (.signed 0) 0 2 100).2 (0, 0) := by
  have h := C10_approve_unconstrained_by_balance
    (transfer (init genesis (.signed 0) [1] [2] 10).2 (.signed 0) 0 1 10).2 0 0 2 100
    (by decide) (by decide)
  exact ⟨h.1, h.2, by decide⟩

end Erc20Claims
